import Mathlib

/-!
Verification development for hightemp/github_repo_sync.

The subject program is `cmd/main/main.go`: a service that periodically lists
all repositories visible to an authenticated client and keeps a local mirror
of each in sync (clone if the local path is absent, pull otherwise), using a
pool of workers fed from a buffered channel, with a `sync.WaitGroup` as the
outstanding-task counter.

The definitions below are a shallow embedding of that file.  External
collaborators (the GitHub list API, go-git clone/pull, `os.Stat`,
`time.ParseDuration`, yaml unmarshalling) are modelled as explicit
environment inputs; the control flow, error wrapping and data flow of the
Go functions themselves are translated directly from the source, with the
source line numbers noted in the doc comments.
-/

namespace GithubRepoSync

/-- Remote repository descriptor: the fields of `github.Repository` that the
program reads (`Name` and `CloneURL`; main.go:84, 103, 169). -/
structure Repo where
  name : String
  cloneURL : String
  deriving DecidableEq, Repr

/-- Configuration record (main.go:22-29).  `workerCount` and `workQueueSize`
are Go `int` fields; they are carried as `Int` (nothing in the program
overflows them). -/
structure Config where
  githubToken : String
  githubUser : String
  reposDir : String
  pollInterval : String
  workerCount : Int
  workQueueSize : Int
  deriving DecidableEq, Repr

/-- A YAML config document: which keys are present, and their values.
`yaml.v2` unmarshalling overwrites exactly the fields whose keys are present
in the document and leaves absent fields at their pre-set values
(main.go:51-57). -/
structure ConfigDoc where
  githubToken : Option String := none
  githubUser : Option String := none
  reposDir : Option String := none
  pollInterval : Option String := none
  workerCount : Option Int := none
  workQueueSize : Option Int := none
  deriving DecidableEq, Repr

/-- The pre-set config value that unmarshalling starts from (main.go:51-54):
worker count 5 and queue size 100; Go string fields start at the empty
string. -/
def defaultedConfig : Config :=
  { githubToken := "", githubUser := "", reposDir := "", pollInterval := "",
    workerCount := 5, workQueueSize := 100 }

/-- Unmarshalling a document over a starting value: present fields overwrite,
absent fields are kept (behaviour of `yaml.Unmarshal` into a pre-filled
struct, main.go:55). -/
def applyDoc (doc : ConfigDoc) (c : Config) : Config :=
  { githubToken := doc.githubToken.getD c.githubToken,
    githubUser := doc.githubUser.getD c.githubUser,
    reposDir := doc.reposDir.getD c.reposDir,
    pollInterval := doc.pollInterval.getD c.pollInterval,
    workerCount := doc.workerCount.getD c.workerCount,
    workQueueSize := doc.workQueueSize.getD c.workQueueSize }

/-- `loadConfig` (main.go:45-60): read the file (`none` models a read or
unmarshal failure), then unmarshal over the defaults.  Note: no field is
validated — whatever the document holds is returned. -/
def loadConfig (readResult : Option ConfigDoc) : Option Config :=
  match readResult with
  | none => none
  | some doc => some (applyDoc doc defaultedConfig)

/-- Startup (main.go:192-200): load the config, then parse the poll interval
with `time.ParseDuration`; either failure is fatal (`log.Fatalf`, the process
exits instead of running).  `time.ParseDuration` is an external library
function and is passed in as an oracle returning the parsed duration in
nanoseconds, `none` meaning a parse error. -/
def startup (readResult : Option ConfigDoc) (parseDuration : String → Option Int) :
    Option (Config × Int) :=
  match loadConfig readResult with
  | none => none
  | some c =>
    match parseDuration c.pollInterval with
    | none => none
    | some d => some (c, d)

/-- Sync target resolver: `filepath.Join(config.ReposDir, *repo.Name)`
(main.go:169), on the already-clean paths this program produces. -/
def filepathJoin (dir : String) (name : String) : String :=
  dir ++ "/" ++ name

/-- The account identifier argument passed to `client.Repositories.List`
(main.go:161): the code passes the literal empty string — not
`config.GithubUser` — which the API interprets as the authenticated user. -/
def listUser (_cfg : Config) : String := ""

/-- The `PerPage` option of the list request (main.go:155). -/
def perPage : Nat := 100

/-- One page answered by the remote listing API: the descriptors of the page
and the `NextPage` value of the response (0 = no further pages,
main.go:177). -/
structure Page where
  repos : List Repo
  nextPage : Nat
  deriving DecidableEq, Repr

/-- Environment of one sync cycle: whether `os.MkdirAll` fails
(main.go:140), the successive answers of the remote listing API (the k-th
list request receives `responses[k]`), and the outcome of `processRepo` on
each task (`some msg` = the task failed with that error, which the worker
logs; main.go:82-85). -/
structure CycleEnv where
  mkdirError : Option String
  responses : List (Except String Page)
  taskError : Repo → Option String

/-- Result of the pagination loop of `syncRepos` (main.go:160-182). -/
structure ListLoopOut where
  err : Option String
  tasks : List (Repo × String)
  reqs : List (String × Nat)
  total : Nat
  reportedTotal : Option Nat
  exhausted : Bool
  deriving Repr

/-- The pagination loop of `syncRepos` (main.go:160-182), one recursive step
per list request.  Arguments: remaining API answers, current `opt.Page`
(initially the zero value 0), running `totalReposCnt`, tasks enqueued so far,
requests issued so far.  A request failure returns the wrapped list error
(main.go:163); `NextPage == 0` prints the total and ends pagination
(main.go:177-179); otherwise `opt.Page = resp.NextPage` and the loop
repeats.  `exhausted` marks the model artefact of the environment providing
fewer answers than the loop requests. -/
def runPages (cfg : Config) :
    List (Except String Page) → Nat → Nat → List (Repo × String) →
    List (String × Nat) → ListLoopOut
  | [], _page, total, tasks, reqs =>
    { err := none, tasks := tasks, reqs := reqs, total := total,
      reportedTotal := none, exhausted := true }
  | resp :: rest, page, total, tasks, reqs =>
    let reqs2 := reqs ++ [(listUser cfg, page)]
    match resp with
    | Except.error e =>
      { err := some ("failed to get repositories list: " ++ e),
        tasks := tasks, reqs := reqs2, total := total,
        reportedTotal := none, exhausted := false }
    | Except.ok pg =>
      let total2 := total + pg.repos.length
      let tasks2 := tasks ++ pg.repos.map (fun r => (r, filepathJoin cfg.reposDir r.name))
      if pg.nextPage = 0 then
        { err := none, tasks := tasks2, reqs := reqs2, total := total2,
          reportedTotal := some total2, exhausted := false }
      else
        runPages cfg rest pg.nextPage total2 tasks2 reqs2

/-- Observable outcome of one `syncRepos` cycle.  `waited` records whether
the cycle executed `wg.Wait()` (main.go:184) before returning — the only
synchronisation by which enqueued tasks are known to have completed before
the cycle ends.  `logs` are the per-task error log lines `(repo name,
error)` emitted by workers for the tasks completed under that wait
(main.go:82-85). -/
structure CycleOutcome where
  err : Option String
  tasks : List (Repo × String)
  reqs : List (String × Nat)
  reportedTotal : Option Nat
  waited : Bool
  logs : List (String × String)
  exhausted : Bool
  deriving Repr

/-- `syncRepos` (main.go:133-186): create the root directory (failure is the
cycle's error, main.go:140-142), run the pagination loop enqueueing one task
per descriptor, and on a list error return that error immediately — without
`wg.Wait()` (main.go:163).  Only on the normal end of pagination does the
cycle reach `wg.Wait()` and return nil.  Task errors are logged by the
workers and never enter the return value. -/
def syncRepos (cfg : Config) (env : CycleEnv) : CycleOutcome :=
  match env.mkdirError with
  | some e =>
    { err := some ("failed to create repos directory: " ++ e),
      tasks := [], reqs := [], reportedTotal := none, waited := false,
      logs := [], exhausted := false }
  | none =>
    let out := runPages cfg env.responses 0 0 [] []
    match out.err with
    | some e =>
      { err := some e, tasks := out.tasks, reqs := out.reqs,
        reportedTotal := out.reportedTotal, waited := false, logs := [],
        exhausted := out.exhausted }
    | none =>
      { err := none, tasks := out.tasks, reqs := out.reqs,
        reportedTotal := out.reportedTotal, waited := true,
        logs := out.tasks.filterMap
          (fun t => (env.taskError t.1).map (fun e => (t.1.name, e))),
        exhausted := out.exhausted }

/-- Classification of `os.Stat(task.RepoPath)` as the code consumes it
(main.go:100): `os.IsNotExist(err)` true; stat success; or a stat error that
is not not-exist (for example permission denied). -/
inductive StatOutcome
  | notExist
  | statOk
  | statOtherError
  deriving DecidableEq, Repr

/-- Result of `worktree.Pull` (main.go:121-128): nil (an update was fetched
and applied), `git.NoErrAlreadyUpToDate`, `git.ErrNonFastForwardUpdate`, or
any other error. -/
inductive PullOutcome
  | pullOk
  | alreadyUpToDate
  | nonFastForward
  | pullErr (msg : String)
  deriving DecidableEq, Repr

/-- Environment of one `processRepo` call: the outcomes of the external
`os.Stat`, `git.PlainClone`, `git.PlainOpen`, `Repository.Worktree` and
`Worktree.Pull` operations (`some msg` = that operation failed). -/
structure RepoEnv where
  stat : StatOutcome
  cloneResult : Option String
  openResult : Option String
  worktreeResult : Option String
  pullResult : PullOutcome
  deriving DecidableEq, Repr

/-- Whether the call takes the clone branch: exactly when `os.IsNotExist`
holds of the stat error (main.go:100). -/
def takesCloneBranch (e : RepoEnv) : Bool :=
  match e.stat with
  | StatOutcome.notExist => true
  | _ => false

/-- `Worker.processRepo` (main.go:94-131).  Clone branch when the stat
reports not-exist, wrapping a clone failure (main.go:106-108); otherwise
open, take the worktree, and pull, where `NoErrAlreadyUpToDate` and
`ErrNonFastForwardUpdate` are success (main.go:124-128) and every other
open/worktree/pull error is returned wrapped. -/
def processRepo (e : RepoEnv) : Except String Unit :=
  match e.stat with
  | StatOutcome.notExist =>
    match e.cloneResult with
    | none => Except.ok ()
    | some msg => Except.error ("failed to clone repository: " ++ msg)
  | _ =>
    match e.openResult with
    | some msg => Except.error ("failed to open repository: " ++ msg)
    | none =>
      match e.worktreeResult with
      | some msg => Except.error ("failed to get worktree: " ++ msg)
      | none =>
        match e.pullResult with
        | PullOutcome.pullOk => Except.ok ()
        | PullOutcome.alreadyUpToDate => Except.ok ()
        | PullOutcome.nonFastForward => Except.ok ()
        | PullOutcome.pullErr msg =>
          Except.error ("failed to pull repository: " ++ msg)

/-- Abstract state of one local path and its remote, for the stateful view of
`processRepo`: whether the path exists, whether `git.PlainOpen` would succeed
on it, the head commit of the local default branch, the head commit of the
remote, and whether local history has diverged from the remote (holds
commits the remote lacks, so a fast-forward is impossible). -/
structure World where
  pathExists : Bool
  openable : Bool
  localHead : Nat
  remoteHead : Nat
  diverged : Bool
  deriving DecidableEq, Repr

/-- Transient faults of the external transport during one `processRepo`
call: clone failure, worktree retrieval failure, pull transport failure. -/
structure GitFaults where
  cloneFails : Bool
  worktreeFails : Bool
  pullTransportFails : Bool
  deriving DecidableEq, Repr

/-- The fault-free environment. -/
def noFaults : GitFaults :=
  { cloneFails := false, worktreeFails := false, pullTransportFails := false }

/-- Which outcome one `processRepo` call had, distinguishing the soft
successes the code logs (main.go:124-128) from the errors it returns. -/
inductive UpdateOutcome
  | cloned
  | fastForwarded
  | alreadyUpToDate
  | softNonFastForward
  | cloneError
  | openError
  | worktreeError
  | pullError
  deriving DecidableEq, Repr

/-- Whether `processRepo` returned nil for this outcome (main.go:130):
clone success, pull success, `NoErrAlreadyUpToDate` and
`ErrNonFastForwardUpdate` are all nil. -/
def isTaskSuccess : UpdateOutcome → Bool
  | UpdateOutcome.cloned => true
  | UpdateOutcome.fastForwarded => true
  | UpdateOutcome.alreadyUpToDate => true
  | UpdateOutcome.softNonFastForward => true
  | _ => false

/-- Stateful view of `Worker.processRepo` (main.go:94-131) over `World`,
with the external go-git operations modelled by their documented contracts:
a successful clone creates an openable repository at the remote head (a
failed clone leaves the path absent, to be retried next cycle);
`Worktree.Pull` fast-forwards a local head that is strictly behind,
returns `NoErrAlreadyUpToDate` and changes nothing when the heads are equal,
and returns `ErrNonFastForwardUpdate` and changes nothing when local history
has diverged (go-git never rewrites local history on pull).  The remote head
is part of the state and is never changed by `update`. -/
def update (w : World) (f : GitFaults) : World × UpdateOutcome :=
  if w.pathExists = false then
    if f.cloneFails then (w, UpdateOutcome.cloneError)
    else
      ({ pathExists := true, openable := true, localHead := w.remoteHead,
         remoteHead := w.remoteHead, diverged := false },
       UpdateOutcome.cloned)
  else if w.openable = false then (w, UpdateOutcome.openError)
  else if f.worktreeFails then (w, UpdateOutcome.worktreeError)
  else if f.pullTransportFails then (w, UpdateOutcome.pullError)
  else if w.diverged then (w, UpdateOutcome.softNonFastForward)
  else if w.localHead = w.remoteHead then (w, UpdateOutcome.alreadyUpToDate)
  else ({ w with localHead := w.remoteHead }, UpdateOutcome.fastForwarded)

/-- Whether an `update` call on this world takes the pull branch of
main.go:109-129 (the path exists). -/
def takesPullBranchW (w : World) : Bool := w.pathExists

/-- State of the outstanding-task counter machinery of one cycle: how many
times `wg.Add(1)` has run (main.go:170), how many tasks have been sent on
`tasksChan` (main.go:171-174), and how many times a worker has run
`wg.Done()` (main.go:86). -/
structure PoolSt where
  added : Nat
  visible : Nat
  done : Nat
  deriving DecidableEq, Repr

/-- Atomic steps of the counter machinery, interleaved in any order the
scheduler chooses. -/
inductive PoolStep
  | add
  | send
  | finish
  deriving DecidableEq, Repr

/-- One scheduler step.  The guards are the program order of the source: a
task is sent only after its `wg.Add(1)` (the add at main.go:170 precedes the
send at main.go:171), at most `total` tasks are produced, and a worker can
finish (and `wg.Done()`) only a task that was sent to the channel — each
received task runs `wg.Done()` exactly once (main.go:77-86).  A step whose
guard fails does nothing. -/
def poolStep (total : Nat) (st : PoolSt) : PoolStep → PoolSt
  | PoolStep.add =>
    if st.added < total then
      { added := st.added + 1, visible := st.visible, done := st.done }
    else st
  | PoolStep.send =>
    if st.visible < st.added then
      { added := st.added, visible := st.visible + 1, done := st.done }
    else st
  | PoolStep.finish =>
    if st.done < st.visible then
      { added := st.added, visible := st.visible, done := st.done + 1 }
    else st

/-- Run a whole schedule from a state. -/
def runPool (total : Nat) (steps : List PoolStep) (st : PoolSt) : PoolSt :=
  steps.foldl (poolStep total) st

/-- The initial counter state of a cycle. -/
def poolInit : PoolSt := { added := 0, visible := 0, done := 0 }

/-- The value of the `sync.WaitGroup` counter: adds minus dones. -/
def wgCounter (st : PoolSt) : Int := (st.added : Int) - (st.done : Int)

/-- The invariant of the counter machinery. -/
def PoolInv (total : Nat) (st : PoolSt) : Prop :=
  st.done ≤ st.visible ∧ st.visible ≤ st.added ∧ st.added ≤ total

/-- Steps of `main` as observable events, for the shutdown path
(main.go:232-241). `waitCycleDrain` is the event of blocking until the
in-flight cycle's queue and WaitGroup have drained; it is listed so that its
absence from the code's sequence is expressible. -/
inductive MainStep
  | recvSignal
  | logLine (s : String)
  | cancelCtx
  | waitCycleDrain
  | exitProcess
  deriving DecidableEq, Repr

/-- The exact sequence `main` performs when a signal arrives
(main.go:232-241): receive from `sigChan`, log, `cancel()`, log, and return
from `main` — which terminates the process, killing the worker goroutines
and any in-flight clone or pull.  No step waits for the cycle's queue or
WaitGroup. -/
def shutdownOnSignal : List MainStep :=
  [MainStep.recvSignal,
   MainStep.logLine "Received shutdown signal. Finishing current tasks...",
   MainStep.cancelCtx,
   MainStep.logLine "Service stopped",
   MainStep.exitProcess]

/-! Concrete instances used by the theorems below. -/

/-- A concrete valid configuration. -/
def cfg0 : Config :=
  { githubToken := "t", githubUser := "u", reposDir := "repos",
    pollInterval := "1m", workerCount := 5, workQueueSize := 100 }

/-- A concrete repository descriptor. -/
def repo0 : Repo := { name := "r0", cloneURL := "https://example.invalid/r0.git" }

/-- An account with exactly 150 repositories. -/
def repos150 : List Repo :=
  (List.range 150).map (fun i => { name := toString i, cloneURL := "u" })

/-- The remote serving `repos150` in pages of 100: first request answers 100
descriptors with `NextPage = 2`, second answers the remaining 50 with
`NextPage = 0`. -/
def env150 : CycleEnv :=
  { mkdirError := none,
    responses := [Except.ok { repos := repos150.take 100, nextPage := 2 },
                  Except.ok { repos := repos150.drop 100, nextPage := 0 }],
    taskError := fun _ => none }

/-- A cycle whose first page succeeds (enqueueing one task) and whose second
page request fails. -/
def envListFail : CycleEnv :=
  { mkdirError := none,
    responses := [Except.ok { repos := [repo0], nextPage := 2 },
                  Except.error "boom"],
    taskError := fun _ => none }

/-- A cycle in which the lister succeeds with one repository and that
repository's clone fails. -/
def envOneCloneFails : CycleEnv :=
  { mkdirError := none,
    responses := [Except.ok { repos := [repo0], nextPage := 0 }],
    taskError := fun r =>
      if r.name = "r0" then some "failed to clone repository: boom" else none }

/-- A cycle in which creating the root directory fails. -/
def envMkdirFail : CycleEnv :=
  { mkdirError := some "oops",
    responses := [],
    taskError := fun _ => none }

/-- A single-page cycle environment. -/
def env1 : CycleEnv :=
  { mkdirError := none,
    responses := [Except.ok { repos := [repo0], nextPage := 0 }],
    taskError := fun _ => none }

/-- A config document that sets every key and sets `worker_count` to 0. -/
def docBadWorkers : ConfigDoc :=
  { githubToken := some "t", githubUser := some "u", reposDir := some "r",
    pollInterval := some "1m", workerCount := some 0,
    workQueueSize := some 100 }

/-- A config document that sets only `poll_interval`, leaving every required
credential field absent. -/
def docOnlyInterval : ConfigDoc :=
  { pollInterval := some "1m" }

/-- Modelled from the spec: `time.ParseDuration` is an external standard
library function (spec section 6, "poll interval (duration string)").  On the
two inputs the theorems use it agrees with Go: `"1m"` parses to one minute in
nanoseconds and the empty string (a missing field) fails to parse. -/
def parseDurationSample : String → Option Int :=
  fun s => if s = "1m" then some 60000000000 else none

/-- A local mirror whose history has diverged from the (unchanged) remote. -/
def wDiv : World :=
  { pathExists := true, openable := true, localHead := 5, remoteHead := 3,
    diverged := true }

/-- A world whose local path is absent (first call will clone). -/
def wFresh : World :=
  { pathExists := false, openable := false, localHead := 0, remoteHead := 3,
    diverged := false }

/-- A `processRepo` environment where everything succeeds on a fresh path. -/
def envClean : RepoEnv :=
  { stat := StatOutcome.notExist, cloneResult := none, openResult := none,
    worktreeResult := none, pullResult := PullOutcome.pullOk }

/-- A `processRepo` environment where the pull reports non-fast-forward. -/
def envNFF : RepoEnv :=
  { stat := StatOutcome.statOk, cloneResult := none, openResult := none,
    worktreeResult := none, pullResult := PullOutcome.nonFastForward }

/-- A `processRepo` environment where `os.Stat` fails with an error that is
not not-exist (for example permission denied), and the subsequent open
fails. -/
def envStatErr : RepoEnv :=
  { stat := StatOutcome.statOtherError, cloneResult := none,
    openResult := some "permission denied", worktreeResult := none,
    pullResult := PullOutcome.pullOk }

/-! Helper lemmas. -/

/-- A non-fast-forward pull leaves the local mirror exactly as it was. -/
theorem update_soft_leaves_world (w : World) (f : GitFaults)
    (h : (update w f).2 = UpdateOutcome.softNonFastForward) :
    (update w f).1 = w := by
  unfold update at h ⊢
  split_ifs at h ⊢ <;> simp_all

/-- The pagination loop behaves the same under any two configurations with
the same root directory: the only configuration data it consumes are the
root directory (for task paths) and the account argument of the list call,
which is the constant empty string. -/
theorem runPages_congr (cfg cfg2 : Config) (h : cfg2.reposDir = cfg.reposDir) :
    ∀ (resps : List (Except String Page)) (page total : Nat)
      (tasks : List (Repo × String)) (reqs : List (String × Nat)),
      runPages cfg2 resps page total tasks reqs =
        runPages cfg resps page total tasks reqs := by
  intro resps
  induction resps with
  | nil => intro page total tasks reqs; rfl
  | cons resp rest ih =>
    intro page total tasks reqs
    cases resp with
    | error e => simp [runPages, listUser]
    | ok pg =>
      simp only [runPages, listUser, h]
      by_cases h0 : pg.nextPage = 0 <;> simp [h0, ih]

/-- Every list request issued by the pagination loop carries the empty
account identifier. -/
theorem runPages_users (cfg : Config) :
    ∀ (resps : List (Except String Page)) (page total : Nat)
      (tasks : List (Repo × String)) (reqs : List (String × Nat)),
      (∀ r ∈ reqs, r.1 = "") →
      ∀ r ∈ (runPages cfg resps page total tasks reqs).reqs, r.1 = "" := by
  intro resps
  induction resps with
  | nil =>
    intro page total tasks reqs hreqs
    simpa [runPages] using hreqs
  | cons resp rest ih =>
    intro page total tasks reqs hreqs
    have hreqs2 : ∀ r ∈ reqs ++ [(listUser cfg, page)], r.1 = "" := by
      intro r hr
      rcases List.mem_append.mp hr with hmem | hmem
      · exact hreqs r hmem
      · simp only [List.mem_singleton] at hmem
        subst hmem
        rfl
    cases resp with
    | error e => simpa [runPages] using hreqs2
    | ok pg =>
      by_cases h0 : pg.nextPage = 0
      · simp only [runPages, h0, if_true]
        simpa using hreqs2
      · simp only [runPages, h0, if_false]
        exact ih pg.nextPage _ _ _ hreqs2

/-- Each scheduler step preserves the counter invariant. -/
theorem poolStep_inv (total : Nat) (st : PoolSt) (s : PoolStep)
    (h : PoolInv total st) : PoolInv total (poolStep total st s) := by
  obtain ⟨a, v, d⟩ := st
  cases s <;> dsimp only [poolStep, PoolInv] at h ⊢ <;> split_ifs <;>
    dsimp only <;> omega

/-- Whole schedules preserve the counter invariant. -/
theorem runPool_inv (total : Nat) (steps : List PoolStep) (st : PoolSt)
    (h : PoolInv total st) : PoolInv total (runPool total steps st) := by
  induction steps generalizing st with
  | nil => exact h
  | cons s rest ih => exact ih (poolStep total st s) (poolStep_inv total st s h)

/-- The initial state satisfies the counter invariant. -/
theorem poolInit_inv (total : Nat) : PoolInv total poolInit := by
  dsimp only [PoolInv, poolInit]
  omega

/-! Claim theorems. -/

/-- Claim C2: for every invocation of the Repo Updater: if the local path
does not exist it performs a full clone, returning a wrapped clone error on
failure; if the path exists it opens the repository and pulls, where
already-up-to-date is success, non-fast-forward is a soft success with the
local mirror left as-is, and any other pull/open/worktree error is returned
as a task failure. -/
theorem claim_C2_repo_updater_contract (e : RepoEnv) :
    (e.stat = StatOutcome.notExist → takesCloneBranch e = true)
  ∧ (e.stat = StatOutcome.notExist → e.cloneResult = none →
      processRepo e = Except.ok ())
  ∧ (∀ msg, e.stat = StatOutcome.notExist → e.cloneResult = some msg →
      processRepo e = Except.error ("failed to clone repository: " ++ msg))
  ∧ (e.stat = StatOutcome.statOk → takesCloneBranch e = false)
  ∧ (e.stat = StatOutcome.statOk → e.openResult = none →
      e.worktreeResult = none → e.pullResult = PullOutcome.alreadyUpToDate →
      processRepo e = Except.ok ())
  ∧ (e.stat = StatOutcome.statOk → e.openResult = none →
      e.worktreeResult = none → e.pullResult = PullOutcome.nonFastForward →
      processRepo e = Except.ok ())
  ∧ (∀ msg, e.stat = StatOutcome.statOk → e.openResult = some msg →
      processRepo e = Except.error ("failed to open repository: " ++ msg))
  ∧ (∀ msg, e.stat = StatOutcome.statOk → e.openResult = none →
      e.worktreeResult = some msg →
      processRepo e = Except.error ("failed to get worktree: " ++ msg))
  ∧ (∀ msg, e.stat = StatOutcome.statOk → e.openResult = none →
      e.worktreeResult = none → e.pullResult = PullOutcome.pullErr msg →
      processRepo e = Except.error ("failed to pull repository: " ++ msg))
  ∧ (∀ (w : World) (f : GitFaults),
      (update w f).2 = UpdateOutcome.softNonFastForward → (update w f).1 = w) := by
  obtain ⟨s, c, o, wt, p⟩ := e
  refine ⟨?_, ?_, ?_, ?_, ?_, ?_, ?_, ?_, ?_,
    fun w f h => update_soft_leaves_world w f h⟩
  all_goals intros
  all_goals simp_all [processRepo, takesCloneBranch]

/-- Witness for C2 at concrete environments: a successful clone, a
non-fast-forward soft success, and a failing clone. -/
theorem claim_C2_witness :
    processRepo envClean = Except.ok ()
  ∧ processRepo envNFF = Except.ok ()
  ∧ processRepo { envClean with cloneResult := some "x" } =
      Except.error ("failed to clone repository: " ++ "x") :=
  ⟨(claim_C2_repo_updater_contract envClean).2.1 rfl rfl,
   (claim_C2_repo_updater_contract envNFF).2.2.2.2.2.1 rfl rfl rfl rfl,
   (claim_C2_repo_updater_contract
      { envClean with cloneResult := some "x" }).2.2.1 "x" rfl rfl⟩

/-- Claim C10: the clone branch is taken only when the existence check
reports not-exist; a stat failure with any other error is treated exactly
like an existing repository, so the call attempts open and pull and the
error surfaces as an open/pull failure rather than triggering a clone. -/
theorem claim_C10_stat_error_pull_branch (e : RepoEnv)
    (h : e.stat = StatOutcome.statOtherError) :
    takesCloneBranch e = false
  ∧ processRepo e = processRepo { e with stat := StatOutcome.statOk } := by
  obtain ⟨s, c, o, wt, p⟩ := e
  simp only [RepoEnv.stat] at h
  subst h
  exact ⟨rfl, rfl⟩

/-- Witness for C10: a permission-denied stat leads to the open/pull path
and an open failure. -/
theorem claim_C10_witness :
    takesCloneBranch envStatErr = false
  ∧ processRepo envStatErr =
      processRepo { envStatErr with stat := StatOutcome.statOk } :=
  claim_C10_stat_error_pull_branch envStatErr rfl

/-- Claim C4 (code bug): the sequence that `main` performs on receipt of an
interrupt or terminate signal cancels the shared context and exits the
process with no step that waits for the in-flight cycle's queue or WaitGroup
to drain — contradicting both the claim and the code's own log line
"Finishing current tasks...". -/
theorem claim_C4_shutdown_no_drain :
    MainStep.waitCycleDrain ∉ shutdownOnSignal
  ∧ MainStep.cancelCtx ∈ shutdownOnSignal
  ∧ shutdownOnSignal.getLast? = some MainStep.exitProcess
  ∧ MainStep.logLine "Received shutdown signal. Finishing current tasks..."
      ∈ shutdownOnSignal := by decide

/-- Counterexample for C7: a config document that explicitly sets
`worker_count: 0` is accepted at startup (with a parsable poll interval),
violating the claimed invariant worker count ≥ 1. -/
theorem claim_C7_counterexample :
    (startup (some docBadWorkers) parseDurationSample).isSome = true
  ∧ (startup (some docBadWorkers) parseDurationSample).map
      (fun p => p.1.workerCount) = some 0 := by
  exact ⟨rfl, rfl⟩

/-- Claim C7 as amended: worker count defaults to 5 and queue capacity to
100 when the keys are absent; an unreadable config file and an unparsable
poll interval are fatal at startup; but no bound is validated (worker count,
queue capacity and the parsed interval are accepted as-is) and missing
fields other than the poll interval are not fatal — they default to the
empty string. -/
theorem claim_C7_amended :
    (∀ doc : ConfigDoc, doc.workerCount = none →
      (loadConfig (some doc)).map Config.workerCount = some 5)
  ∧ (∀ doc : ConfigDoc, doc.workQueueSize = none →
      (loadConfig (some doc)).map Config.workQueueSize = some 100)
  ∧ (∀ (doc : ConfigDoc) (pd : String → Option Int) (c : Config),
      loadConfig (some doc) = some c → pd c.pollInterval = none →
      startup (some doc) pd = none)
  ∧ (∀ pd : String → Option Int, startup none pd = none)
  ∧ (∀ (d : Int) (pd : String → Option Int), pd "1m" = some d →
      (startup (some docOnlyInterval) pd).map
        (fun p => p.1.githubToken) = some "") := by
  refine ⟨?_, ?_, ?_, ?_, ?_⟩
  · intro doc h
    simp [loadConfig, applyDoc, defaultedConfig, h]
  · intro doc h
    simp [loadConfig, applyDoc, defaultedConfig, h]
  · intro doc pd c hc hp
    unfold startup
    rw [hc]
    simp [hp]
  · intro pd
    rfl
  · intro d pd hp
    simp [startup, loadConfig, applyDoc, defaultedConfig, docOnlyInterval, hp]

/-- Witness for the amended C7 at concrete documents and parse oracles. -/
theorem claim_C7_amended_witness :
    ((loadConfig (some docOnlyInterval)).map Config.workerCount = some 5)
  ∧ ((loadConfig (some docOnlyInterval)).map Config.workQueueSize = some 100)
  ∧ (startup (some docOnlyInterval) (fun _ => none) = none)
  ∧ (startup none parseDurationSample = none)
  ∧ ((startup (some docOnlyInterval) parseDurationSample).map
      (fun p => p.1.githubToken) = some "") :=
  ⟨claim_C7_amended.1 docOnlyInterval rfl,
   claim_C7_amended.2.1 docOnlyInterval rfl,
   claim_C7_amended.2.2.1 docOnlyInterval (fun _ => none)
     (applyDoc docOnlyInterval defaultedConfig) rfl rfl,
   claim_C7_amended.2.2.2.1 parseDurationSample,
   claim_C7_amended.2.2.2.2 60000000000 parseDurationSample rfl⟩

/-- Counterexample for C9: on a diverged local mirror with an unchanged
remote, both calls succeed and mutate nothing, but the second call reports
non-fast-forward, not already-up-to-date. -/
theorem claim_C9_counterexample :
    isTaskSuccess (update wDiv noFaults).2 = true
  ∧ (update wDiv noFaults).1 = wDiv
  ∧ (update (update wDiv noFaults).1 noFaults).2 =
      UpdateOutcome.softNonFastForward
  ∧ ¬ (update (update wDiv noFaults).1 noFaults).2 =
      UpdateOutcome.alreadyUpToDate := by decide

/-- Claim C9 as amended: if the first `update` call succeeds with an outcome
other than the soft non-fast-forward case, then a second call with the
remote unchanged and no transport faults takes the pull branch, reports
already-up-to-date, returns success, and leaves the world (the files under
the local path) unchanged. -/
theorem claim_C9_amended (w : World) (f : GitFaults)
    (hok : isTaskSuccess (update w f).2 = true)
    (hnff : ¬ (update w f).2 = UpdateOutcome.softNonFastForward) :
    takesPullBranchW (update w f).1 = true
  ∧ update (update w f).1 noFaults =
      ((update w f).1, UpdateOutcome.alreadyUpToDate) := by
  obtain ⟨pe, op, lh, rh, dv⟩ := w
  obtain ⟨cf, wf, pf⟩ := f
  by_cases hlr : lh = rh <;>
    cases pe <;> cases op <;> cases cf <;> cases wf <;> cases pf <;> cases dv <;>
    simp_all [update, noFaults, isTaskSuccess, takesPullBranchW]

/-- Witness for the amended C9: a fresh path is cloned, and the second call
reports already-up-to-date without mutating the mirror. -/
theorem claim_C9_amended_witness :
    takesPullBranchW (update wFresh noFaults).1 = true
  ∧ update (update wFresh noFaults).1 noFaults =
      ((update wFresh noFaults).1, UpdateOutcome.alreadyUpToDate) :=
  claim_C9_amended wFresh noFaults (by decide) (by decide)

/-- Claim C1: the cycle's returned error is the root-directory-creation
error if that fails, else exactly the pagination loop's error (the wrapped
lister error, or nil); the cycle's error never depends on the per-task
outcomes; and concretely, a cycle in which the lister succeeds and one
repository's clone fails returns nil while the worker logs the task
error. -/
theorem claim_C1_cycle_error_policy (cfg : Config) (env : CycleEnv) :
    (∀ e, env.mkdirError = some e →
      (syncRepos cfg env).err =
        some ("failed to create repos directory: " ++ e))
  ∧ (∀ f : Repo → Option String,
      (syncRepos cfg { env with taskError := f }).err = (syncRepos cfg env).err)
  ∧ (env.mkdirError = none →
      (syncRepos cfg env).err = (runPages cfg env.responses 0 0 [] []).err)
  ∧ ((syncRepos cfg0 envOneCloneFails).err = none
      ∧ (syncRepos cfg0 envOneCloneFails).logs =
          [("r0", "failed to clone repository: boom")]) := by
  refine ⟨?_, ?_, ?_, ?_, ?_⟩
  · intro e h
    simp [syncRepos, h]
  · intro f
    unfold syncRepos
    cases h : env.mkdirError with
    | some e => rfl
    | none =>
      cases h2 : (runPages cfg env.responses 0 0 [] []).err <;> simp [h2]
  · intro h
    unfold syncRepos
    rw [h]
    cases h2 : (runPages cfg env.responses 0 0 [] []).err <;> simp [h2]
  · decide
  · decide

/-- Witness for C1 at concrete cycles: a failing directory creation returns
the wrapped directory error, and a cycle with a failing clone task returns
nil. -/
theorem claim_C1_witness :
    (syncRepos cfg0 envMkdirFail).err =
      some ("failed to create repos directory: " ++ "oops")
  ∧ (syncRepos cfg0 envOneCloneFails).err = none :=
  ⟨(claim_C1_cycle_error_policy cfg0 envMkdirFail).1 "oops" rfl,
   (claim_C1_cycle_error_policy cfg0 envOneCloneFails).2.2.2.1⟩

/-- Counterexample for C3: in a cycle whose first page succeeds (one task
enqueued) and whose second page request fails, `syncRepos` returns the list
error with the enqueued task outstanding and without having executed
`wg.Wait()` — the enqueued task is not processed to completion before the
cycle ends. -/
theorem claim_C3_counterexample :
    (syncRepos cfg0 envListFail).tasks.length = 1
  ∧ (syncRepos cfg0 envListFail).err =
      some "failed to get repositories list: boom"
  ∧ (syncRepos cfg0 envListFail).waited = false := by decide

/-- Claim C3 as amended: the cycle waits for every enqueued task to reach a
terminal outcome (`wg.Wait()`) exactly when it returns nil; on a page
request failure it returns the lister error immediately, leaving the
already-enqueued tasks outstanding (no new pages are fetched, but their
completion before the cycle ends is not ensured). -/
theorem claim_C3_amended (cfg : Config) (env : CycleEnv) :
    (syncRepos cfg env).waited = true ↔ (syncRepos cfg env).err = none := by
  unfold syncRepos
  cases h : env.mkdirError with
  | some e => simp
  | none =>
    cases h2 : (runPages cfg env.responses 0 0 [] []).err <;> simp [h2]

/-- Witness for the amended C3 at a concrete successful cycle and a concrete
failing one. -/
theorem claim_C3_amended_witness :
    ((syncRepos cfg0 env1).waited = true ↔ (syncRepos cfg0 env1).err = none)
  ∧ ((syncRepos cfg0 envListFail).waited = true ↔
      (syncRepos cfg0 envListFail).err = none) :=
  ⟨claim_C3_amended cfg0 env1, claim_C3_amended cfg0 envListFail⟩

/-- Claim C5: under every interleaving of counter operations, the
outstanding-task counter stays non-negative; each task's `wg.Add(1)`
precedes its visibility to workers (`visible ≤ added`) and each visible task
is finished — and decremented — at most once (`done ≤ visible`); and once
all tasks are enqueued, the counter is zero exactly at `done = total`, which
is the state `wg.Wait()` releases at before the cycle is reported
complete. -/
theorem claim_C5_counter_invariant (total : Nat) (steps pre suf : List PoolStep)
    (hsplit : steps = pre ++ suf) :
    0 ≤ wgCounter (runPool total pre poolInit)
  ∧ PoolInv total (runPool total pre poolInit)
  ∧ PoolInv total (runPool total steps poolInit)
  ∧ ((runPool total steps poolInit).added = total ∧
      wgCounter (runPool total steps poolInit) = 0 →
      (runPool total steps poolInit).done = total) := by
  have hpre := runPool_inv total pre poolInit (poolInit_inv total)
  have hall := runPool_inv total steps poolInit (poolInit_inv total)
  obtain ⟨p1, p2, p3⟩ := hpre
  obtain ⟨a1, a2, a3⟩ := hall
  refine ⟨?_, ⟨p1, p2, p3⟩, ⟨a1, a2, a3⟩, ?_⟩
  · unfold wgCounter
    omega
  · intro hdone
    unfold wgCounter at hdone
    omega

/-- Witness for C5 at a concrete schedule of two tasks with interleaved
production and consumption. -/
theorem claim_C5_witness :
    0 ≤ wgCounter (runPool 2
      [PoolStep.add, PoolStep.send, PoolStep.add, PoolStep.finish] poolInit)
  ∧ PoolInv 2 (runPool 2
      [PoolStep.add, PoolStep.send, PoolStep.add, PoolStep.finish] poolInit)
  ∧ PoolInv 2 (runPool 2
      [PoolStep.add, PoolStep.send, PoolStep.add, PoolStep.finish,
       PoolStep.send, PoolStep.finish] poolInit)
  ∧ ((runPool 2
      [PoolStep.add, PoolStep.send, PoolStep.add, PoolStep.finish,
       PoolStep.send, PoolStep.finish] poolInit).added = 2 ∧
      wgCounter (runPool 2
      [PoolStep.add, PoolStep.send, PoolStep.add, PoolStep.finish,
       PoolStep.send, PoolStep.finish] poolInit) = 0 →
      (runPool 2
      [PoolStep.add, PoolStep.send, PoolStep.add, PoolStep.finish,
       PoolStep.send, PoolStep.finish] poolInit).done = 2) :=
  claim_C5_counter_invariant 2
    [PoolStep.add, PoolStep.send, PoolStep.add, PoolStep.finish,
     PoolStep.send, PoolStep.finish]
    [PoolStep.add, PoolStep.send, PoolStep.add, PoolStep.finish]
    [PoolStep.send, PoolStep.finish] rfl

set_option maxRecDepth 10000 in
/-- Claim C6: the list request asks for pages of 100; the environment pages
of the 150-repository account respect that size; the cycle issues exactly 2
list requests (pages 0 then 2), enqueues exactly 150 tasks, reports the
total 150 at pagination end, and returns nil; and in general the loop stops
exactly when a response carries `NextPage == 0` and otherwise re-requests at
the returned next page. -/
theorem claim_C6_pagination :
    perPage = 100
  ∧ (repos150.take 100).length = perPage
  ∧ (repos150.drop 100).length ≤ perPage
  ∧ (syncRepos cfg0 env150).reqs = [("", 0), ("", 2)]
  ∧ (syncRepos cfg0 env150).tasks.length = 150
  ∧ (syncRepos cfg0 env150).reportedTotal = some 150
  ∧ (syncRepos cfg0 env150).err = none
  ∧ (∀ (cfg : Config) (e : String) (rest : List (Except String Page))
        (page total : Nat) (tasks : List (Repo × String))
        (reqs : List (String × Nat)),
        runPages cfg (Except.error e :: rest) page total tasks reqs =
          { err := some ("failed to get repositories list: " ++ e),
            tasks := tasks, reqs := reqs ++ [(listUser cfg, page)],
            total := total, reportedTotal := none, exhausted := false })
  ∧ (∀ (cfg : Config) (pg : Page) (rest : List (Except String Page))
        (page total : Nat) (tasks : List (Repo × String))
        (reqs : List (String × Nat)),
        runPages cfg (Except.ok pg :: rest) page total tasks reqs =
          if pg.nextPage = 0 then
            { err := none,
              tasks := tasks ++ pg.repos.map
                (fun r => (r, filepathJoin cfg.reposDir r.name)),
              reqs := reqs ++ [(listUser cfg, page)],
              total := total + pg.repos.length,
              reportedTotal := some (total + pg.repos.length),
              exhausted := false }
          else
            runPages cfg rest pg.nextPage (total + pg.repos.length)
              (tasks ++ pg.repos.map
                (fun r => (r, filepathJoin cfg.reposDir r.name)))
              (reqs ++ [(listUser cfg, page)])) := by
  refine ⟨rfl, by decide, by decide, by decide, by decide, by decide, by decide,
    ?_, ?_⟩
  · intro cfg e rest page total tasks reqs
    rfl
  · intro cfg pg rest page total tasks reqs
    by_cases h0 : pg.nextPage = 0 <;> simp [runPages, h0]

/-- Counterexample for C8: it is not the case that every list request of a
cycle carries the account identifier from the configuration — the concrete
cycle under `cfg0` (whose account identifier is "u") issues its request with
the empty account identifier. -/
theorem claim_C8_counterexample :
    ¬ ∀ (cfg : Config) (env : CycleEnv) (r : String × Nat),
        r ∈ (syncRepos cfg env).reqs → r.1 = cfg.githubUser := by
  intro h
  have h2 := h cfg0 env1 ("", 0) (by decide)
  exact absurd h2 (by decide)

/-- Claim C8 as amended: every list request of a cycle is issued with the
empty account identifier (interpreted by the remote as the authenticated
token owner), and the whole cycle outcome is invariant under changing the
configured account identifier — two configs differing only in that field
list the same repositories. -/
theorem claim_C8_amended (cfg : Config) (env : CycleEnv) (u : String) :
    (∀ r ∈ (syncRepos cfg env).reqs, r.1 = "")
  ∧ syncRepos { cfg with githubUser := u } env = syncRepos cfg env := by
  constructor
  · unfold syncRepos
    cases h : env.mkdirError with
    | some e => simp
    | none =>
      cases h2 : (runPages cfg env.responses 0 0 [] []).err with
      | none =>
        simp only [h2]
        intro r hr
        exact runPages_users cfg env.responses 0 0 [] [] (by simp) r (by simpa using hr)
      | some e =>
        simp only [h2]
        intro r hr
        exact runPages_users cfg env.responses 0 0 [] [] (by simp) r (by simpa using hr)
  · have hcongr :=
      runPages_congr cfg { cfg with githubUser := u } rfl env.responses 0 0 [] []
    unfold syncRepos
    cases h : env.mkdirError with
    | some e => rfl
    | none => rw [hcongr]

/-- Witness for the amended C8 at a concrete configuration and cycle. -/
theorem claim_C8_amended_witness :
    syncRepos { cfg0 with githubUser := "somebody" } env1 = syncRepos cfg0 env1 :=
  (claim_C8_amended cfg0 env1 "somebody").2

end GithubRepoSync
